import Mathlib

/-!
Shallow embedding of the cost-monitoring pipeline of
`scripts/cost-monitor.js` (report / alert / optimization entry points,
configuration, and the per-fetch error handling), with proofs of the
spec claims about it.

Modelling conventions:
* JS numbers are modelled as rationals (`ℚ`); the `Amount` strings
  returned by the billing API are modelled as already-parsed rationals.
* `Number.prototype.toFixed(d)` is modelled numerically by `toFixed2` /
  `toFixed1` (round to d decimal places) and textually by
  `toFixedString` (the decimal string it produces).
* Each external fetch is modelled as a pure function of the API call
  outcome (`Except String α`), mirroring the `try/catch` in the source.
* The `"N/A"` sentinel for `summary.budgetUsed` is modelled as `none`
  of an `Option ℚ`; `some v` is the numeric value of the rendered
  percentage string.
-/

namespace CostMonitor

/-- Report / alert classification used by the script (the strings
`"OK"`, `"WARNING"`, `"CRITICAL"` in the source). -/
inductive Status where
  | OK : Status
  | WARNING : Status
  | CRITICAL : Status
deriving DecidableEq, Repr

/-- One group of the Cost Explorer response: `Keys[0]` and the parsed
`Metrics.BlendedCost.Amount`. -/
structure Group where
  key : String
  amount : ℚ
deriving DecidableEq, Repr

/-- The single `ResultsByTime` entry used by `getCurrentMonthCosts`. -/
structure CurrentCosts where
  groups : List Group
deriving DecidableEq, Repr

/-- One daily entry: `TimePeriod.Start` and the parsed
`Total.BlendedCost.Amount`. -/
structure DailyDay where
  start : String
  amount : ℚ
deriving DecidableEq, Repr

/-- Forecast response: the `MeanValue` of each `ForecastResultsByTime`
entry. -/
structure ForecastData where
  forecastResultsByTime : List ℚ
deriving DecidableEq, Repr

/-- A budget record returned by `describeBudgets` (only the fields the
script looks at matter; `limitAmount` stands for the rest of the record
and is demonstrably never read by the report path). -/
structure BudgetRecord where
  budgetName : String
  limitAmount : ℚ
deriving DecidableEq, Repr

/-- Numeric value of `x.toFixed(2)`: round to 2 decimal places. -/
def toFixed2 (q : ℚ) : ℚ := (round (q * 100) : ℤ) / 100

/-- Numeric value of `x.toFixed(1)`: round to 1 decimal place. -/
def toFixed1 (q : ℚ) : ℚ := (round (q * 10) : ℤ) / 10

/-- Left-pad a string with zeros to the given width. -/
def padZeros (s : String) (width : Nat) : String :=
  String.mk (List.replicate (width - s.length) '0') ++ s

/-- The decimal string produced by `x.toFixed(d)` for `d > 0`. -/
def toFixedString (d : Nat) (q : ℚ) : String :=
  let p : ℤ := round (q * ((10 : ℚ) ^ d))
  let sign := if p < 0 then "-" else ""
  let n := p.natAbs
  sign ++ toString (n / 10 ^ d) ++ "." ++ padZeros (toString (n % 10 ^ d)) d

/-- Result of JavaScript `parseFloat`. -/
inductive JSNumber where
  | nan : JSNumber
  | val : ℚ → JSNumber
deriving DecidableEq, Repr

/-- Numeric value of a digit character. -/
def digitVal (c : Char) : Nat := c.toNat - 48

/-- Value of a digit string read left to right. -/
def digitsToNat (ds : List Char) : Nat :=
  ds.foldl (fun n c => 10 * n + digitVal c) 0

/-- `parseFloat` on a string: skip leading whitespace, optional sign,
integer digits, optional fraction digits; `NaN` when no digit was
found.  Exponent suffixes and the `Infinity` literal are not modelled
(the script only meets plain decimal environment values). -/
def jsParseFloat (s : String) : JSNumber :=
  let cs := s.toList.dropWhile (fun c => c == ' ' || c == '\t' || c == '\n')
  let signAndRest : ℚ × List Char :=
    match cs with
    | '-' :: rest => (-1, rest)
    | '+' :: rest => (1, rest)
    | _ => (1, cs)
  let intDigits := signAndRest.2.takeWhile Char.isDigit
  let afterInt := signAndRest.2.dropWhile Char.isDigit
  let fracDigits : List Char :=
    match afterInt with
    | '.' :: r => r.takeWhile Char.isDigit
    | _ => []
  if intDigits.isEmpty && fracDigits.isEmpty then .nan
  else .val (signAndRest.1 *
    ((digitsToNat intDigits : ℚ) +
      (digitsToNat fracDigits : ℚ) / ((10 : ℚ) ^ fracDigits.length)))

/-- JavaScript `x || d` on the result of `parseFloat x`: `NaN` and `0`
are falsy, so both fall back to the default. -/
def jsNumOr (v : JSNumber) (d : ℚ) : ℚ :=
  match v with
  | .nan => d
  | .val q => if q = 0 then d else q

/-- JavaScript `s || d` on an environment string: `undefined` and the
empty string are falsy. -/
def jsStrOr (v : Option String) (d : String) : String :=
  match v with
  | none => d
  | some s => if s = "" then d else s

/-- The fixed list of tracked services in `CONFIG.services`. -/
def trackedServices : List String :=
  ["Amazon Amplify", "Amazon CloudFront", "Amazon Route 53",
   "AWS Certificate Manager", "Amazon CloudWatch", "Amazon S3"]

/-- The configuration record built at the top of the script. -/
structure Config where
  region : String
  appName : String
  budgetLimit : ℚ
  alertThreshold : ℚ
  services : List String
deriving DecidableEq, Repr

/-- The `CONFIG` object as a function of the three environment
variables it reads (`AWS_REGION`, `APP_NAME`, `COST_BUDGET_LIMIT`);
`parseFloat(undefined)` is `NaN`. -/
def CONFIG (envRegion envAppName envBudgetLimit : Option String) : Config :=
  { region := jsStrOr envRegion "us-east-1"
    appName := jsStrOr envAppName "slightbuild"
    budgetLimit :=
      jsNumOr (match envBudgetLimit with
               | none => .nan
               | some s => jsParseFloat s) 10
    alertThreshold := 4/5
    services := trackedServices }

/-- `getCurrentMonthCosts`: on success `ResultsByTime[0] || {Groups: []}`,
on a caught query error `{Groups: []}`. -/
def getCurrentMonthCosts (apiResult : Except String (List CurrentCosts)) :
    CurrentCosts :=
  match apiResult with
  | .ok resultsByTime => resultsByTime.headD ⟨[]⟩
  | .error _ => ⟨[]⟩

/-- `getDailyCosts`: on success `ResultsByTime || []`, on a caught query
error `[]`. -/
def getDailyCosts (apiResult : Except String (List DailyDay)) :
    List DailyDay :=
  match apiResult with
  | .ok resultsByTime => resultsByTime
  | .error _ => []

/-- `getCostForecast`: on success the response itself, on a caught query
error `{ForecastResultsByTime: []}`. -/
def getCostForecast (apiResult : Except String ForecastData) : ForecastData :=
  match apiResult with
  | .ok result => result
  | .error _ => ⟨[]⟩

/-- `pat.isPrefixOf s` on character lists, written out. -/
def startsWithChars : List Char → List Char → Bool
  | [], _ => true
  | _ :: _, [] => false
  | a :: pat, b :: s => a == b && startsWithChars pat s

/-- JavaScript `s.includes(sub)`: substring test. -/
def strIncludes (s sub : String) : Bool :=
  s.toList.tails.any (fun t => startsWithChars sub.toList t)

/-- `getBudgetInfo`: find the first budget whose name includes the app
name or `"monthly-budget"`; a caught query error yields `null`, a
fruitless `find` yields `undefined` — both modelled as `none`. -/
def getBudgetInfo (cfg : Config)
    (apiResult : Except String (List BudgetRecord)) : Option BudgetRecord :=
  match apiResult with
  | .ok budgetList =>
      budgetList.find? (fun b =>
        strIncludes b.budgetName cfg.appName ||
        strIncludes b.budgetName "monthly-budget")
  | .error _ => none

/-- The `reduce` over `currentCosts.Groups` computing the total current
month cost. -/
def totalCostOf (groups : List Group) : ℚ :=
  groups.foldl (fun sum group => sum + group.amount) 0

/-- `summary` block of the generated report (numeric model of the
rendered fields; `budgetUsed = none` stands for `"N/A"`). -/
structure Summary where
  totalCost : ℚ
  budgetLimit : ℚ
  budgetUsed : Option ℚ
  status : Status
deriving DecidableEq, Repr

/-- One `serviceBreakdown` entry of the report. -/
structure ServiceEntry where
  service : String
  cost : ℚ
  percentage : ℚ
deriving DecidableEq, Repr

/-- One `dailyTrend` entry of the report. -/
structure DailyEntry where
  date : String
  cost : ℚ
deriving DecidableEq, Repr

/-- The `forecast` block of the report when present. -/
structure ForecastEntry where
  nextMonth : ℚ
  confidence : String
deriving DecidableEq, Repr

/-- The report object assembled by `generateCostReport`. -/
structure Report where
  timestamp : String
  period : String
  summary : Summary
  serviceBreakdown : List ServiceEntry
  dailyTrend : List DailyEntry
  forecast : Option ForecastEntry
deriving DecidableEq, Repr

/-- Pure core of `generateCostReport`: assembles the report from the
four fetched inputs (timestamp and period strings are passed in; the
console output and the file write are side effects around this value). -/
def generateCostReport (cfg : Config) (timestamp period : String)
    (currentCosts : CurrentCosts) (dailyCosts : List DailyDay)
    (forecast : ForecastData) (budget : Option BudgetRecord) : Report :=
  let totalCost := totalCostOf currentCosts.groups
  { timestamp := timestamp
    period := period
    summary :=
      { totalCost := toFixed2 totalCost
        budgetLimit := cfg.budgetLimit
        budgetUsed :=
          match budget with
          | some _ => some (toFixed1 (totalCost / cfg.budgetLimit * 100))
          | none => none
        status :=
          if totalCost > cfg.budgetLimit * cfg.alertThreshold
          then .WARNING else .OK }
    serviceBreakdown :=
      currentCosts.groups.map (fun group =>
        { service := group.key
          cost := toFixed2 group.amount
          percentage := toFixed1 (group.amount / totalCost * 100) })
    dailyTrend :=
      (dailyCosts.drop (dailyCosts.length - 7)).map (fun day =>
        { date := day.start, cost := toFixed2 day.amount })
    forecast :=
      match forecast.forecastResultsByTime with
      | [] => none
      | meanValue :: _ => some { nextMonth := toFixed2 meanValue
                                 confidence := "Medium" } }

/-- An alert handed to `sendAlert` by `checkCostAlerts`. -/
structure Alert where
  level : String
  message : String
deriving DecidableEq, Repr

/-- Pure core of `checkCostAlerts`: recompute the total, classify
against the configured limit, and return the classification together
with the `sendAlert` invocation it dispatches (`none` on OK). -/
def checkCostAlerts (cfg : Config) (currentCosts : CurrentCosts) :
    Status × Option Alert :=
  let totalCost := totalCostOf currentCosts.groups
  let percentageUsed := totalCost / cfg.budgetLimit * 100
  if percentageUsed ≥ 100 then
    (.CRITICAL,
     some { level := "CRITICAL"
            message := "Budget exceeded: $" ++ toFixedString 2 totalCost ++
              " / $" ++ toString cfg.budgetLimit })
  else if percentageUsed ≥ cfg.alertThreshold * 100 then
    (.WARNING,
     some { level := "WARNING"
            message := "Budget " ++ toFixedString 1 percentageUsed ++
              "% used: $" ++ toFixedString 2 totalCost ++
              " / $" ++ toString cfg.budgetLimit })
  else
    (.OK, none)

/-- The parameter record passed to `sns.publish`. -/
structure PublishParams where
  topicArn : String
  subject : String
  message : String
deriving DecidableEq, Repr

/-- `sendAlert`: first component is the list of outbound publish calls
made, second is what propagates to the caller (always `ok` — a missing
topic is a logged no-op and a publish failure is caught and logged). -/
def sendAlert (topicArn : Option String)
    (publish : PublishParams → Except String Unit)
    (level message timestamp appName : String) :
    List PublishParams × Except String Unit :=
  match topicArn with
  | none => ([], .ok ())
  | some arn =>
      let params : PublishParams :=
        { topicArn := arn
          subject := "SlightBuild Cost Alert - " ++ level
          message := message ++ "\n\nTimestamp: " ++ timestamp ++
            "\nApp: " ++ appName }
      match publish params with
      | .ok _ => ([params], .ok ())
      | .error _ => ([params], .ok ())

/-- An optimization recommendation pushed by
`generateOptimizationReport`. -/
structure Recommendation where
  service : String
  cost : ℚ
  recommendation : String
  impact : String
  effort : String
deriving DecidableEq, Repr

/-- The `switch` body of `generateOptimizationReport` for one group:
the recommendation it pushes, if any. -/
def recommendationFor (group : Group) : Option Recommendation :=
  if group.key = "Amazon Amplify" then
    if group.amount > 2 then
      some { service := group.key
             cost := toFixed2 group.amount
             recommendation :=
               "Consider enabling performance mode and optimizing build times"
             impact := "Medium"
             effort := "Low" }
    else none
  else if group.key = "Amazon CloudFront" then
    if group.amount > 1 then
      some { service := group.key
             cost := toFixed2 group.amount
             recommendation :=
               "Review caching policies and consider image optimization"
             impact := "High"
             effort := "Medium" }
    else none
  else if group.key = "Amazon Route 53" then
    if group.amount > 1 then
      some { service := group.key
             cost := toFixed2 group.amount
             recommendation :=
               "Review DNS queries and consider consolidating hosted zones"
             impact := "Low"
             effort := "Low" }
    else none
  else none

/-- Pure core of `generateOptimizationReport`: the recommendations list
built by the `forEach`/`switch` over the current cost groups. -/
def generateOptimizationReport (currentCosts : CurrentCosts) :
    List Recommendation :=
  currentCosts.groups.filterMap recommendationFor

/-- The fixed per-service thresholds the `switch` applies; services
without a `case` have no threshold and never yield a recommendation. -/
def serviceThreshold (service : String) : Option ℚ :=
  if service = "Amazon Amplify" then some 2
  else if service = "Amazon CloudFront" then some 1
  else if service = "Amazon Route 53" then some 1
  else none

/-- Whether a group exceeds its service threshold (and so yields a
recommendation). -/
def exceedsThreshold (group : Group) : Bool :=
  match serviceThreshold group.key with
  | some t => group.amount > t
  | none => false

/-- JSON values, modelling what `JSON.stringify` writes to the report
file and `JSON.parse` reads back (the textual layer is the JSON
library's; the script hands it this tree). -/
inductive Json where
  | null : Json
  | str : String → Json
  | num : ℚ → Json
  | arr : List Json → Json
  | obj : List (String × Json) → Json

/-- The string stored in the report's `status` field. -/
def statusString : Status → String
  | .OK => "OK"
  | .WARNING => "WARNING"
  | .CRITICAL => "CRITICAL"

/-- The string stored in the report's `budgetUsed` field. -/
def budgetUsedString : Option ℚ → String
  | none => "N/A"
  | some v => toFixedString 1 v

/-- JSON encoding of the `summary` block, with the `toFixed` strings
the script stores. -/
def summaryToJson (s : Summary) : Json :=
  .obj [("totalCost", .str (toFixedString 2 s.totalCost)),
        ("budgetLimit", .num s.budgetLimit),
        ("budgetUsed", .str (budgetUsedString s.budgetUsed)),
        ("status", .str (statusString s.status))]

/-- JSON encoding of one `serviceBreakdown` entry. -/
def serviceEntryToJson (e : ServiceEntry) : Json :=
  .obj [("service", .str e.service),
        ("cost", .str (toFixedString 2 e.cost)),
        ("percentage", .str (toFixedString 1 e.percentage))]

/-- JSON encoding of one `dailyTrend` entry. -/
def dailyEntryToJson (d : DailyEntry) : Json :=
  .obj [("date", .str d.date), ("cost", .str (toFixedString 2 d.cost))]

/-- JSON encoding of the `forecast` field (`null` when absent). -/
def forecastToJson : Option ForecastEntry → Json
  | none => .null
  | some f => .obj [("nextMonth", .str (toFixedString 2 f.nextMonth)),
                    ("confidence", .str f.confidence)]

/-- JSON encoding of the whole report as written to
`cost-report-<period>.json`. -/
def reportToJson (r : Report) : Json :=
  .obj [("timestamp", .str r.timestamp),
        ("period", .str r.period),
        ("summary", summaryToJson r.summary),
        ("serviceBreakdown", .arr (r.serviceBreakdown.map serviceEntryToJson)),
        ("dailyTrend", .arr (r.dailyTrend.map dailyEntryToJson)),
        ("forecast", forecastToJson r.forecast)]

/-- Field access on a parsed JSON object. -/
def Json.getField : Json → String → Option Json
  | .obj fields, key => fields.lookup key
  | _, _ => none

/-- A parsed JSON value as a string, when it is one. -/
def Json.asString : Json → Option String
  | .str s => some s
  | _ => none

/-- A parsed JSON value as a number, when it is one. -/
def Json.asNumber : Json → Option ℚ
  | .num q => some q
  | _ => none

/-- The summary values a reader of the report file recovers. -/
structure ParsedSummary where
  totalCost : String
  budgetLimit : ℚ
  budgetUsed : String
  status : String
deriving DecidableEq, Repr

/-- Reading the four `summary` values back out of the parsed report
file. -/
def parseSummary (j : Json) : Option ParsedSummary := do
  let s ← j.getField "summary"
  let totalCost ← (← s.getField "totalCost").asString
  let budgetLimit ← (← s.getField "budgetLimit").asNumber
  let budgetUsed ← (← s.getField "budgetUsed").asString
  let status ← (← s.getField "status").asString
  return { totalCost := totalCost, budgetLimit := budgetLimit,
           budgetUsed := budgetUsed, status := status }

/-! Helper lemmas shared by the claim theorems. -/

/-- The `reduce` computing the total is the sum of the per-group
amounts. -/
theorem totalCostOf_eq_sum (groups : List Group) :
    totalCostOf groups = (groups.map Group.amount).sum := by
  suffices h : ∀ (l : List Group) (a : ℚ),
      l.foldl (fun sum group => sum + group.amount) a =
        a + (l.map Group.amount).sum by
    simpa [totalCostOf] using h groups 0
  intro l
  induction l with
  | nil => intro a; simp
  | cons g gs ih => intro a; simp [ih]; ring

/-- Rounding to two decimals moves a value by at most `0.005`. -/
theorem abs_toFixed2_sub (q : ℚ) : |toFixed2 q - q| ≤ 1 / 200 := by
  have h := abs_sub_round (q * 100)
  have hrw : toFixed2 q - q = -((q * 100 - round (q * 100)) / 100) := by
    simp only [toFixed2]; ring
  rw [hrw, abs_neg, abs_div]
  rw [show |(100 : ℚ)| = 100 by norm_num]
  linarith [h]

/-- Rounding to one decimal moves a value by at most `0.05`. -/
theorem abs_toFixed1_sub (q : ℚ) : |toFixed1 q - q| ≤ 1 / 20 := by
  have h := abs_sub_round (q * 10)
  have hrw : toFixed1 q - q = -((q * 10 - round (q * 10)) / 10) := by
    simp only [toFixed1]; ring
  rw [hrw, abs_neg, abs_div]
  rw [show |(10 : ℚ)| = 10 by norm_num]
  linarith [h]

/-- A pointwise perturbation of at most `e` moves a list sum by at most
`length * e`. -/
theorem abs_sum_map_sub (l : List ℚ) (f : ℚ → ℚ) (e : ℚ)
    (hf : ∀ x, |f x - x| ≤ e) :
    |(l.map f).sum - l.sum| ≤ l.length * e := by
  induction l with
  | nil => simp
  | cons x xs ih =>
    simp only [List.map_cons, List.sum_cons, List.length_cons]
    have h1 : f x + (xs.map f).sum - (x + xs.sum) =
        (f x - x) + ((xs.map f).sum - xs.sum) := by ring
    rw [h1]
    calc |(f x - x) + ((xs.map f).sum - xs.sum)| ≤
        |f x - x| + |(xs.map f).sum - xs.sum| := abs_add _ _
      _ ≤ e + xs.length * e := add_le_add (hf x) ih
      _ = (xs.length + 1) * e := by ring
      _ = ((xs.length + 1 : ℕ) : ℚ) * e := by push_cast; ring

/-- The `switch` yields a recommendation exactly when the group's
service has a threshold and its cost exceeds it. -/
theorem recommendationFor_isSome (g : Group) :
    (recommendationFor g).isSome = exceedsThreshold g := by
  simp only [recommendationFor, exceedsThreshold, serviceThreshold]
  split_ifs <;> simp_all

/-- A produced recommendation carries the group's service name. -/
theorem recommendationFor_service (g : Group) (r : Recommendation)
    (h : recommendationFor g = some r) : r.service = g.key := by
  simp only [recommendationFor] at h
  split_ifs at h <;> (try cases h) <;> simp_all

/-- The recommendations list holds exactly one entry per threshold-
exceeding group, in order, named after its service. -/
theorem filterMap_services (l : List Group) :
    ((l.filterMap recommendationFor).map Recommendation.service) =
      (l.filter exceedsThreshold).map Group.key := by
  induction l with
  | nil => rfl
  | cons g gs ih =>
    rcases hr : recommendationFor g with _ | r
    · have he : exceedsThreshold g = false := by
        rw [← recommendationFor_isSome, hr]; rfl
      simp [List.filterMap_cons, hr, List.filter_cons, he, ih]
    · have he : exceedsThreshold g = true := by
        rw [← recommendationFor_isSome, hr]; rfl
      simp [List.filterMap_cons, hr, List.filter_cons, he, ih,
        recommendationFor_service g r hr]

/-- `parseFloat("0")` is the number `0` (which JavaScript `||` treats
as falsy). -/
theorem jsParseFloat_zero : jsParseFloat "0" = .val 0 := by
  have step : jsParseFloat "0" =
      .val (1 * (((digitsToNat ['0'] : ℕ) : ℚ) +
        ((digitsToNat ([] : List Char) : ℕ) : ℚ) / 10 ^ (0 : ℕ))) := rfl
  rw [step]
  norm_num [digitsToNat, digitVal, show ('0').toNat = 48 from rfl]

/-! Claim theorems. -/

/-- C1: for every report produced by `generateCostReport`,
`summary.status` is `WARNING` exactly when the total current-month cost
is strictly greater than `budgetLimit * alertThreshold`, and `OK`
otherwise; the configured alert threshold defaults to `0.8`. -/
theorem generateCostReport_status_iff (cfg : Config)
    (timestamp period : String) (currentCosts : CurrentCosts)
    (dailyCosts : List DailyDay) (forecast : ForecastData)
    (budget : Option BudgetRecord) :
    ((generateCostReport cfg timestamp period currentCosts dailyCosts forecast
        budget).summary.status = .WARNING ↔
      totalCostOf currentCosts.groups > cfg.budgetLimit * cfg.alertThreshold) ∧
    ((generateCostReport cfg timestamp period currentCosts dailyCosts forecast
        budget).summary.status = .OK ↔
      ¬ totalCostOf currentCosts.groups > cfg.budgetLimit * cfg.alertThreshold) ∧
    (∀ envRegion envAppName envBudgetLimit,
      (CONFIG envRegion envAppName envBudgetLimit).alertThreshold = 4/5) := by
  refine ⟨?_, ?_, fun _ _ _ => rfl⟩ <;>
  · simp only [generateCostReport]
    split_ifs with h <;> simp [h]

/-- C2: `checkCostAlerts` classifies by `total / budgetLimit * 100`:
at least 100 percent is `CRITICAL`, at least `alertThreshold * 100`
percent but below 100 is `WARNING`, otherwise `OK`; a notification is
dispatched exactly when the status is not `OK`; and with the default
limit 10 and threshold 0.8, total 12 is `CRITICAL` (dispatched),
total 8.5 is `WARNING` (dispatched), total 5 is `OK` (nothing sent). -/
theorem checkCostAlerts_classification (cfg : Config)
    (currentCosts : CurrentCosts) :
    ((checkCostAlerts cfg currentCosts).1 = .CRITICAL ↔
      totalCostOf currentCosts.groups / cfg.budgetLimit * 100 ≥ 100) ∧
    ((checkCostAlerts cfg currentCosts).1 = .WARNING ↔
      (totalCostOf currentCosts.groups / cfg.budgetLimit * 100 ≥
          cfg.alertThreshold * 100 ∧
        totalCostOf currentCosts.groups / cfg.budgetLimit * 100 < 100)) ∧
    ((checkCostAlerts cfg currentCosts).1 = .OK ↔
      (totalCostOf currentCosts.groups / cfg.budgetLimit * 100 <
          cfg.alertThreshold * 100 ∧
        totalCostOf currentCosts.groups / cfg.budgetLimit * 100 < 100)) ∧
    ((checkCostAlerts cfg currentCosts).2 = none ↔
      (checkCostAlerts cfg currentCosts).1 = .OK) ∧
    (checkCostAlerts (CONFIG none none none)
        ⟨[⟨"Amazon Amplify", 12⟩]⟩ |>.1) = .CRITICAL ∧
    (checkCostAlerts (CONFIG none none none)
        ⟨[⟨"Amazon Amplify", 12⟩]⟩ |>.2.isSome) = true ∧
    (checkCostAlerts (CONFIG none none none)
        ⟨[⟨"Amazon Amplify", 17/2⟩]⟩ |>.1) = .WARNING ∧
    (checkCostAlerts (CONFIG none none none)
        ⟨[⟨"Amazon Amplify", 17/2⟩]⟩ |>.2.isSome) = true ∧
    (checkCostAlerts (CONFIG none none none)
        ⟨[⟨"Amazon Amplify", 5⟩]⟩ |>.1) = .OK ∧
    (checkCostAlerts (CONFIG none none none)
        ⟨[⟨"Amazon Amplify", 5⟩]⟩ |>.2) = none := by
  refine ⟨?_, ?_, ?_, ?_, ?_, ?_, ?_, ?_, ?_, ?_⟩
  · simp only [checkCostAlerts]
    split_ifs with h1 h2 <;> simp_all
  · simp only [checkCostAlerts]
    split_ifs with h1 h2 <;> simp_all
  · simp only [checkCostAlerts]
    split_ifs with h1 h2 <;> simp_all
  · simp only [checkCostAlerts]
    split_ifs with h1 h2 <;> simp_all
  all_goals norm_num [checkCostAlerts, CONFIG, totalCostOf, jsNumOr]

/-- C3 counterexample: with two services each costing `0.004`, the
reported (two-decimal) `summary.totalCost` is `0.01` while the reported
per-service costs sum to `0.00`, a gap of `0.01`, far beyond the
claimed `1e-6` tolerance. -/
theorem totalCost_rounding_counterexample :
    ¬ (|(generateCostReport (CONFIG none none none) "ts" "2026-10"
          ⟨[⟨"Amazon Amplify", 1/250⟩, ⟨"Amazon CloudFront", 1/250⟩]⟩
          [] ⟨[]⟩ none).summary.totalCost -
        ((generateCostReport (CONFIG none none none) "ts" "2026-10"
          ⟨[⟨"Amazon Amplify", 1/250⟩, ⟨"Amazon CloudFront", 1/250⟩]⟩
          [] ⟨[]⟩ none).serviceBreakdown.map ServiceEntry.cost).sum| ≤
      1 / 1000000) := by
  norm_num [generateCostReport, totalCostOf, toFixed2, round_eq, CONFIG,
    jsNumOr, abs]

/-- C3 amended: the pre-rounding total is exactly the sum of the
pre-rounding per-service costs; the reported two-decimal fields agree
only within `(n + 1) * 0.005` for `n` services; when the raw total is
nonzero the raw percentages sum to exactly 100 and the reported
one-decimal percentages sum to 100 within `n * 0.05`. -/
theorem totalCost_sum_amended (cfg : Config) (timestamp period : String)
    (currentCosts : CurrentCosts) (dailyCosts : List DailyDay)
    (forecast : ForecastData) (budget : Option BudgetRecord)
    (h : totalCostOf currentCosts.groups ≠ 0) :
    totalCostOf currentCosts.groups =
      (currentCosts.groups.map Group.amount).sum ∧
    |(generateCostReport cfg timestamp period currentCosts dailyCosts
        forecast budget).summary.totalCost -
      ((generateCostReport cfg timestamp period currentCosts dailyCosts
        forecast budget).serviceBreakdown.map ServiceEntry.cost).sum| ≤
      (currentCosts.groups.length + 1) / 200 ∧
    (currentCosts.groups.map (fun g =>
      g.amount / totalCostOf currentCosts.groups * 100)).sum = 100 ∧
    |((generateCostReport cfg timestamp period currentCosts dailyCosts
        forecast budget).serviceBreakdown.map ServiceEntry.percentage).sum -
      100| ≤ currentCosts.groups.length / 20 := by
  have hsum := totalCostOf_eq_sum currentCosts.groups
  refine ⟨hsum, ?_, ?_, ?_⟩
  · have hb : ((generateCostReport cfg timestamp period currentCosts dailyCosts
        forecast budget).serviceBreakdown.map ServiceEntry.cost) =
        (currentCosts.groups.map Group.amount).map toFixed2 := by
      simp [generateCostReport, List.map_map]
    rw [hb]
    have h1 : |toFixed2 (totalCostOf currentCosts.groups) -
        totalCostOf currentCosts.groups| ≤ 1 / 200 := abs_toFixed2_sub _
    have h2 : |((currentCosts.groups.map Group.amount).map toFixed2).sum -
        (currentCosts.groups.map Group.amount).sum| ≤
        (currentCosts.groups.map Group.amount).length * (1 / 200) :=
      abs_sum_map_sub _ _ _ abs_toFixed2_sub
    rw [List.length_map] at h2
    have hT : (generateCostReport cfg timestamp period currentCosts dailyCosts
        forecast budget).summary.totalCost =
        toFixed2 (totalCostOf currentCosts.groups) := rfl
    rw [hT]
    calc |toFixed2 (totalCostOf currentCosts.groups) -
          ((currentCosts.groups.map Group.amount).map toFixed2).sum|
        = |(toFixed2 (totalCostOf currentCosts.groups) -
            totalCostOf currentCosts.groups) -
           (((currentCosts.groups.map Group.amount).map toFixed2).sum -
            (currentCosts.groups.map Group.amount).sum)| := by
          rw [← hsum]; ring_nf
      _ ≤ |toFixed2 (totalCostOf currentCosts.groups) -
            totalCostOf currentCosts.groups| +
          |((currentCosts.groups.map Group.amount).map toFixed2).sum -
            (currentCosts.groups.map Group.amount).sum| := abs_sub _ _
      _ ≤ 1 / 200 + currentCosts.groups.length * (1 / 200) :=
          add_le_add h1 h2
      _ = (currentCosts.groups.length + 1) / 200 := by ring
  · have hfun : (fun g : Group =>
        g.amount / totalCostOf currentCosts.groups * 100) =
        (fun g : Group =>
          g.amount * (100 / totalCostOf currentCosts.groups)) := by
      funext g; ring
    rw [hfun, List.sum_map_mul_right, ← hsum]
    field_simp
  · have hb : ((generateCostReport cfg timestamp period currentCosts dailyCosts
        forecast budget).serviceBreakdown.map ServiceEntry.percentage) =
        (currentCosts.groups.map (fun g =>
          g.amount / totalCostOf currentCosts.groups * 100)).map toFixed1 := by
      simp [generateCostReport, List.map_map]
    rw [hb]
    have h2 := abs_sum_map_sub
      (currentCosts.groups.map (fun g =>
        g.amount / totalCostOf currentCosts.groups * 100)) toFixed1 (1 / 20)
      abs_toFixed1_sub
    rw [List.length_map] at h2
    have hp : (currentCosts.groups.map (fun g =>
        g.amount / totalCostOf currentCosts.groups * 100)).sum = 100 := by
      have hfun : (fun g : Group =>
          g.amount / totalCostOf currentCosts.groups * 100) =
          (fun g : Group =>
            g.amount * (100 / totalCostOf currentCosts.groups)) := by
        funext g; ring
      rw [hfun, List.sum_map_mul_right, ← hsum]
      field_simp
    rw [hp] at h2
    calc |((currentCosts.groups.map (fun g =>
          g.amount / totalCostOf currentCosts.groups * 100)).map
            toFixed1).sum - 100|
        ≤ currentCosts.groups.length * (1 / 20) := h2
      _ = currentCosts.groups.length / 20 := by ring

/-- C3 amended, witness: the two-service breakdown with amounts `0.004`
has nonzero raw total, and the theorem applies to it. -/
theorem totalCost_sum_amended_witness :
    totalCostOf (⟨[⟨"Amazon Amplify", 1/250⟩, ⟨"Amazon CloudFront", 1/250⟩]⟩ :
        CurrentCosts).groups ≠ 0 ∧
    totalCostOf (⟨[⟨"Amazon Amplify", 1/250⟩, ⟨"Amazon CloudFront", 1/250⟩]⟩ :
        CurrentCosts).groups =
      ((⟨[⟨"Amazon Amplify", 1/250⟩, ⟨"Amazon CloudFront", 1/250⟩]⟩ :
        CurrentCosts).groups.map Group.amount).sum :=
  ⟨by norm_num [totalCostOf],
   (totalCost_sum_amended (CONFIG none none none) "ts" "2026-10"
      ⟨[⟨"Amazon Amplify", 1/250⟩, ⟨"Amazon CloudFront", 1/250⟩]⟩ [] ⟨[]⟩ none
      (by norm_num [totalCostOf])).1⟩

/-- C4: `generateOptimizationReport` emits exactly one canned
recommendation per cost group whose service has a threshold in the
fixed table and whose cost exceeds it (`Amazon Amplify` above 2.0,
`Amazon Route 53` above 1.0), in particular exactly one recommendation
(for Amplify) on the breakdown Amplify 3.5 / Route 53 0.3. -/
theorem generateOptimizationReport_spec :
    (∀ currentCosts : CurrentCosts,
      (generateOptimizationReport currentCosts).map Recommendation.service =
        (currentCosts.groups.filter exceedsThreshold).map Group.key) ∧
    (∀ g : Group, (recommendationFor g).isSome = exceedsThreshold g) ∧
    serviceThreshold "Amazon Amplify" = some 2 ∧
    serviceThreshold "Amazon Route 53" = some 1 ∧
    generateOptimizationReport
        ⟨[⟨"Amazon Amplify", 7/2⟩, ⟨"Amazon Route 53", 3/10⟩]⟩ =
      [⟨"Amazon Amplify", toFixed2 (7/2),
        "Consider enabling performance mode and optimizing build times",
        "Medium", "Low"⟩] := by
  refine ⟨fun cc => filterMap_services cc.groups, recommendationFor_isSome,
    rfl, rfl, ?_⟩
  norm_num [generateOptimizationReport, recommendationFor, List.filterMap_cons]

/-- C5: every fetch catches its own failure and substitutes an empty
default, and a failed forecast query yields a report with `forecast`
`none` whose `summary` and `serviceBreakdown` coincide with those built
from any forecast outcome. -/
theorem forecast_failure_isolated (cfg : Config) (timestamp period : String)
    (ccResult : Except String (List CurrentCosts))
    (dcResult : Except String (List DailyDay))
    (budResult : Except String (List BudgetRecord)) (e : String) :
    (generateCostReport cfg timestamp period (getCurrentMonthCosts ccResult)
        (getDailyCosts dcResult) (getCostForecast (.error e))
        (getBudgetInfo cfg budResult)).forecast = none ∧
    (∀ fResult : Except String ForecastData,
      (generateCostReport cfg timestamp period (getCurrentMonthCosts ccResult)
          (getDailyCosts dcResult) (getCostForecast fResult)
          (getBudgetInfo cfg budResult)).summary =
        (generateCostReport cfg timestamp period (getCurrentMonthCosts ccResult)
          (getDailyCosts dcResult) (getCostForecast (.error e))
          (getBudgetInfo cfg budResult)).summary ∧
      (generateCostReport cfg timestamp period (getCurrentMonthCosts ccResult)
          (getDailyCosts dcResult) (getCostForecast fResult)
          (getBudgetInfo cfg budResult)).serviceBreakdown =
        (generateCostReport cfg timestamp period (getCurrentMonthCosts ccResult)
          (getDailyCosts dcResult) (getCostForecast (.error e))
          (getBudgetInfo cfg budResult)).serviceBreakdown) ∧
    getCurrentMonthCosts (.error e) = ⟨[]⟩ ∧
    getDailyCosts (Except.error e) = ([] : List DailyDay) ∧
    getCostForecast (.error e) = ⟨[]⟩ ∧
    getBudgetInfo cfg (.error e) = none :=
  ⟨rfl, fun _ => ⟨rfl, rfl⟩, rfl, rfl, rfl, rfl⟩

/-- C6: with no notification destination configured `sendAlert` makes
no outbound publish call and returns normally, and when it is
configured a publish failure is swallowed — nothing propagates to the
caller. -/
theorem sendAlert_safe (publish : PublishParams → Except String Unit)
    (level message timestamp appName : String) :
    sendAlert none publish level message timestamp appName =
      ([], Except.ok ()) ∧
    (∀ arn : String,
      (sendAlert (some arn) publish level message timestamp appName).2 =
        Except.ok ()) := by
  refine ⟨rfl, fun arn => ?_⟩
  simp only [sendAlert]
  rcases publish _ with _ | _ <;> rfl

/-- C7: `summary.budgetUsed` is the `"N/A"` sentinel exactly when the
budget lookup returned no record, and otherwise equals
`total / budgetLimit * 100` computed from the configured limit alone,
independently of the record's contents. -/
theorem budgetUsed_na_iff (cfg : Config) (timestamp period : String)
    (currentCosts : CurrentCosts) (dailyCosts : List DailyDay)
    (forecast : ForecastData)
    (budResult : Except String (List BudgetRecord)) :
    ((generateCostReport cfg timestamp period currentCosts dailyCosts forecast
        (getBudgetInfo cfg budResult)).summary.budgetUsed = none ↔
      getBudgetInfo cfg budResult = none) ∧
    (∀ record : BudgetRecord,
      (generateCostReport cfg timestamp period currentCosts dailyCosts forecast
          (some record)).summary.budgetUsed =
        some (toFixed1
          (totalCostOf currentCosts.groups / cfg.budgetLimit * 100))) := by
  constructor
  · rcases h : getBudgetInfo cfg budResult with _ | record <;>
      simp [generateCostReport]
  · intro record; rfl

/-- C8: reading the four summary values back out of the JSON written
for a generated report reproduces exactly the values that were placed
into it. -/
theorem report_json_roundtrip (cfg : Config) (timestamp period : String)
    (currentCosts : CurrentCosts) (dailyCosts : List DailyDay)
    (forecast : ForecastData) (budget : Option BudgetRecord) :
    parseSummary (reportToJson (generateCostReport cfg timestamp period
        currentCosts dailyCosts forecast budget)) =
      some { totalCost := toFixedString 2 (generateCostReport cfg timestamp
               period currentCosts dailyCosts forecast budget).summary.totalCost,
             budgetLimit := (generateCostReport cfg timestamp period
               currentCosts dailyCosts forecast budget).summary.budgetLimit,
             budgetUsed := budgetUsedString (generateCostReport cfg timestamp
               period currentCosts dailyCosts forecast budget).summary.budgetUsed,
             status := statusString (generateCostReport cfg timestamp period
               currentCosts dailyCosts forecast budget).summary.status } := rfl

/-- C9: when the total equals `budgetLimit * alertThreshold` exactly
(limit positive, threshold below 1), the report path says `OK` (strict
comparison) while the alert path says `WARNING` and dispatches a
notification (non-strict comparison) — the two disagree at the
boundary. -/
theorem threshold_boundary_disagreement (cfg : Config)
    (currentCosts : CurrentCosts) (timestamp period : String)
    (dailyCosts : List DailyDay) (forecast : ForecastData)
    (budget : Option BudgetRecord)
    (hEq : totalCostOf currentCosts.groups =
      cfg.budgetLimit * cfg.alertThreshold)
    (hLim : 0 < cfg.budgetLimit) (hThr : cfg.alertThreshold < 1) :
    (generateCostReport cfg timestamp period currentCosts dailyCosts forecast
        budget).summary.status = .OK ∧
    (checkCostAlerts cfg currentCosts).1 = .WARNING ∧
    ((checkCostAlerts cfg currentCosts).2).isSome = true := by
  have hl : cfg.budgetLimit ≠ 0 := ne_of_gt hLim
  have hp : totalCostOf currentCosts.groups / cfg.budgetLimit * 100 =
      cfg.alertThreshold * 100 := by
    rw [hEq]; field_simp
  refine ⟨?_, ?_, ?_⟩
  · simp only [generateCostReport]
    rw [hEq]
    simp
  · simp only [checkCostAlerts, hp]
    have h100 : ¬ (cfg.alertThreshold * 100 ≥ 100) := by nlinarith
    simp [h100]
  · simp only [checkCostAlerts, hp]
    have h100 : ¬ (cfg.alertThreshold * 100 ≥ 100) := by nlinarith
    simp [h100]

/-- C9 witness: total 8 with the default limit 10 and threshold 0.8
sits exactly on the boundary: report `OK`, alert `WARNING` with a
notification dispatched. -/
theorem threshold_boundary_disagreement_witness :
    (generateCostReport (CONFIG none none none) "ts" "2026-10"
        ⟨[⟨"Amazon Amplify", 8⟩]⟩ [] ⟨[]⟩ none).summary.status = .OK ∧
    (checkCostAlerts (CONFIG none none none)
        ⟨[⟨"Amazon Amplify", 8⟩]⟩).1 = .WARNING ∧
    ((checkCostAlerts (CONFIG none none none)
        ⟨[⟨"Amazon Amplify", 8⟩]⟩).2).isSome = true :=
  threshold_boundary_disagreement (CONFIG none none none)
    ⟨[⟨"Amazon Amplify", 8⟩]⟩ "ts" "2026-10" [] ⟨[]⟩ none
    (by norm_num [totalCostOf, CONFIG, jsNumOr])
    (by norm_num [CONFIG, jsNumOr])
    (by norm_num [CONFIG])

/-- C10: an environment value that `parseFloat` maps to `0` or `NaN`
(such as the string `"0"`) silently falls back to the default budget
limit `10`, and no environment value at all can configure a budget
limit of zero. -/
theorem budgetLimit_zero_not_configurable
    (envRegion envAppName : Option String) (s : String)
    (h : jsParseFloat s = .nan ∨ jsParseFloat s = .val 0) :
    (CONFIG envRegion envAppName (some s)).budgetLimit = 10 ∧
    (∀ envBudgetLimit : Option String,
      (CONFIG envRegion envAppName envBudgetLimit).budgetLimit ≠ 0) := by
  constructor
  · rcases h with h | h <;> simp [CONFIG, h, jsNumOr]
  · intro env
    simp only [CONFIG, jsNumOr]
    rcases env with _ | s'
    · norm_num
    · rcases hv : jsParseFloat s' with _ | q
      · simp [hv]
      · simp only [hv]
        split_ifs with hq
        · norm_num
        · exact hq

/-- C10 witness: the environment string `"0"` parses to the number 0,
so the configured budget limit is the default 10 and never zero. -/
theorem budgetLimit_zero_not_configurable_witness :
    (CONFIG none none (some "0")).budgetLimit = 10 ∧
    (∀ envBudgetLimit : Option String,
      (CONFIG none none envBudgetLimit).budgetLimit ≠ 0) :=
  budgetLimit_zero_not_configurable none none "0" (Or.inr jsParseFloat_zero)

end CostMonitor
